import Mathlib

/-!
# SoftAP controller, Atheros variant (`SoftapControllerATH.cpp`)

A shallow embedding of the controller: the process-wide variables (`mPid`,
`mProfileValid`, `ctrl_conn`, `rfkill_id`) together with the parts of the
outside world the code touches (radio power file, daemon configuration file,
wake lock) form one `World` record that every function threads through.
Each call of a collaborator (system call, property service, control socket
library) takes its answer from an environment record handed to the function,
so that a statement quantified over the environment covers every behaviour of
the collaborators.  Every function also appends the externally visible calls
it issues to `World.trace`.
-/

set_option linter.unusedVariables false
set_option maxRecDepth 100000

namespace SoftapATH

/-! ## Constants of the translation unit -/

def IFACE_DIR : String := "/data/misc/wifi/hostapd"
def HOSTAPD_NAME : String := "hostapd"
def HOSTAPD_CONFIG_TEMPLATE : String := "/system/etc/wifi/hostapd.conf"
def HOSTAPD_CONFIG_FILE : String := "/data/misc/wifi/hostapd.conf"
def HOSTAPD_PROP_NAME : String := "init.svc.hostapd"
def WIFI_DEFAULT_BI : Int := 100
def WIFI_DEFAULT_DTIM : Int := 1
def WIFI_DEFAULT_CHANNEL : Int := 6
def WIFI_DEFAULT_MAX_STA : Int := 8
def WIFI_DEFAULT_PREAMBLE : Int := 0
def AP_WAKE_LOCK : String := "hotspot_wake_lock"

/-- The response codes of `ResponseCode.h` that this file returns.  The header
is not part of the translation unit; only the fact that the four names denote
different codes is used. -/
inductive ResponseCode where
  | SoftapStatusResult
  | CommandSyntaxError
  | ServiceStartFailed
  | OperationFailed
  deriving DecidableEq, Repr

/-- Preprocessor configuration of the build, and the one constant the file
takes from `SoftapController.h`. -/
structure Build where
  WIFI_MODULE_PATH : Bool
  WIFI_DRIVER_MODULE_AP_ARG : Option String
  HAVE_LIBC_SYSTEM_PROPERTIES : Bool
  AP_CHANNEL_DEFAULT : Int

/-- Externally visible calls, in the order the code issues them. -/
inductive Event where
  | startDriver (name : String)
  | stopDriver (name : String)
  | ifc_init
  | ifc_up (name : String)
  | wifi_start_hostapd
  | wifi_stop_hostapd
  | wifi_connect_to_hostapd
  | wifi_close_hostapd_connection
  | wpa_ctrl_cleanup
  | property_set (key value : String)
  | wpa_ctrl_open (path : String)
  | wpa_ctrl_attach (h : Nat)
  | wpa_ctrl_close (h : Nat)
  | acquire_wake_lock (name : String)
  | release_wake_lock (name : String)
  | rmmod (name : String)
  | insmod (args : String)
  | rfkill_write (c : Char)
  | ifname_write (name : String)
  | conf_open_trunc
  | conf_write (text : String)
  | conf_unlink
  deriving DecidableEq, Repr

/-- Process-wide variables of the translation unit and the outside state they
are meant to mirror. `ctrl_conn = none` is the null pointer; `conf = none`
means the configuration file does not exist. -/
structure World where
  mPid : Int
  mProfileValid : Int
  ctrl_conn : Option Nat
  rfkill_id : Int
  radio : Char
  conf : Option String
  wakeLock : Bool
  trace : List Event

/-- Append one call to the trace. -/
def World.log (w : World) (e : Event) : World :=
  { w with trace := w.trace ++ [e] }

/-- State right after `SoftapController::SoftapController()`: `mPid(0)`,
`mProfileValid = 0`, `ctrl_conn = NULL`; `rfkill_id` has its static
initialiser `-1`. The outside state (radio, file) is whatever it is. -/
def World.construct (radio : Char) (conf : Option String) : World :=
  { mPid := 0, mProfileValid := 0, ctrl_conn := none, rfkill_id := -1,
    radio := radio, conf := conf, wakeLock := false, trace := [] }

/-! ## rfkill power gate -/

/-- Answers of the system calls made by one `set_wifi_power` call.
`rfkillTypes` lists the content of `/sys/class/rfkill/rfkill<id>/type` for
`id = 0, 1, ...`; opening an entry beyond the list fails. -/
structure PowerEnv where
  rfkillTypes : List String
  stateOpenR : Bool
  stateRead : Bool
  stateOpenW : Bool
  stateWrite : Int

/-- The scan loop of `init_rfkill`: first entry whose type starts with
`wlan`; `none` when an `open` fails first. -/
def init_rfkill_scan : List String → Nat → Option Nat
  | [], _ => none
  | t :: ts, id =>
    if t.toList.take 4 = "wlan".toList then some id
    else init_rfkill_scan ts (id + 1)

def init_rfkill (env : PowerEnv) (w : World) : World × Int :=
  match init_rfkill_scan env.rfkillTypes 0 with
  | none => (w, -1)
  | some id => ({ w with rfkill_id := (id : Int) }, 0)

def check_wifi_power (env : PowerEnv) (w : World) : World × Int :=
  let r := if w.rfkill_id = -1 then init_rfkill env w else (w, 0)
  if r.2 ≠ 0 then (r.1, -1)
  else if ¬ env.stateOpenR then (r.1, -1)
  else if ¬ env.stateRead then (r.1, -1)
  else if r.1.radio = '1' then (r.1, 1)
  else if r.1.radio = '0' then (r.1, 0)
  else (r.1, -1)

def set_wifi_power (env : PowerEnv) (on' : Int) (w : World) : World × Int :=
  let buffer : Char := if on' ≠ 0 then '1' else '0'
  let r := if w.rfkill_id = -1 then init_rfkill env w else (w, 0)
  if r.2 ≠ 0 then (r.1, -1)
  else
    let c := check_wifi_power env r.1
    if c.2 = on' then (c.1, 0)
    else if ¬ env.stateOpenW then (c.1, -1)
    else if env.stateWrite < 0 then (c.1, -1)
    else
      let w1 := c.1.log (.rfkill_write buffer)
      (if env.stateWrite > 0 then { w1 with radio := buffer } else w1, 0)

/-! ## Daemon configuration file -/

/-- Answers for `ensure_config_file_exists`. `accessible` is whether
`access(R_OK|W_OK)` succeeds on an existing file; `template` is the content of
the template when it can be opened; `copied` is what the unchecked `write`
calls of the copy loop leave in the destination. -/
structure ConfEnv where
  accessible : Bool
  template : Option String
  destOpen : Bool
  readError : Bool
  copied : String
  chown : Bool

def ensure_config_file_exists (env : ConfEnv) (w : World) : World × Int :=
  match w.conf with
  | some _ => if env.accessible then (w, 0) else (w, -1)
  | none =>
    match env.template with
    | none => (w, -1)
    | some _ =>
      if ¬ env.destOpen then (w, -1)
      else if env.readError then (({ w with conf := none }).log .conf_unlink, -1)
      else if ¬ env.chown then (({ w with conf := none }).log .conf_unlink, -1)
      else ({ w with conf := some env.copied }, 0)

/-! ## Daemon supervision -/

/-- One reading of the status property inside the polling loop of
`wifi_start_hostapd`: `found` answers `__system_property_find` (asked only
while `pi` is still null). -/
structure PropPoll where
  found : Bool
  status : String
  serial : Nat

/-- Behaviour of the property service during one `wifi_start_hostapd`. The
value `""` of `initial` stands for an unset property (`property_get` returns
length 0). -/
structure HostapdStartEnv where
  initial : String
  foundAtStart : Bool
  serialAtStart : Nat
  polls : Nat → PropPoll

/-- The loop `while (count-- > 0)` of `wifi_start_hostapd`; `i` numbers the
polls, `pi` tells whether the property handle is already known. -/
def startPollLoop (hasProps : Bool) (polls : Nat → PropPoll) (serial : Nat) :
    Nat → Nat → Bool → Int
  | 0, _, _ => -1
  | count + 1, i, pi =>
    if hasProps then
      let pi1 := pi || (polls i).found
      if pi1 then
        if (polls i).status = "running" then 0
        else if (polls i).serial ≠ serial ∧ (polls i).status = "stopped" then -1
        else startPollLoop hasProps polls serial count (i + 1) pi1
      else startPollLoop hasProps polls serial count (i + 1) pi1
    else startPollLoop hasProps polls serial count (i + 1) pi

def wifi_start_hostapd (b : Build) (env : HostapdStartEnv) (w : World) : World × Int :=
  let w0 := w.log .wifi_start_hostapd
  if env.initial = "running" then (w0, 0)
  else
    let w1 := w0.log .wpa_ctrl_cleanup
    let pi : Bool := b.HAVE_LIBC_SYSTEM_PROPERTIES && env.foundAtStart
    let serial : Nat := if pi then env.serialAtStart else 0
    let w2 := w1.log (.property_set "ctl.start" HOSTAPD_NAME)
    (w2, startPollLoop b.HAVE_LIBC_SYSTEM_PROPERTIES env.polls serial 300 0 pi)

/-- Behaviour of the property service during one `wifi_stop_hostapd`. -/
structure HostapdStopEnv where
  initial : String
  polls : Nat → String

def stopPollLoop (polls : Nat → String) : Nat → Nat → Int
  | 0, _ => -1
  | count + 1, i =>
    if polls i = "stopped" then 0 else stopPollLoop polls count (i + 1)

def wifi_stop_hostapd (env : HostapdStopEnv) (w : World) : World × Int :=
  let w0 := w.log .wifi_stop_hostapd
  if env.initial = "stopped" then (w0, 0)
  else
    let w1 := w0.log (.property_set "ctl.stop" HOSTAPD_NAME)
    (w1, stopPollLoop env.polls 50 0)

/-! ## Control session -/

/-- Behaviour of the daemon and its socket during one
`wifi_connect_to_hostapd`: the status property, the answers of the successive
`access` calls on the socket path, of the successive `wpa_ctrl_open` attempts
(`none` is a null result) and of `wpa_ctrl_attach`. -/
structure ConnectEnv where
  status : String
  access : Nat → Bool
  openAttempt : Nat → Option Nat
  attach : Int

/-- The loop `while (access(...) != 0 && cnt-- > 0)`: returns the number of
`access` calls it made. -/
def accessLoop (access : Nat → Bool) : Nat → Nat → Nat
  | 0, i => i + 1
  | cnt + 1, i => if access i then i + 1 else accessLoop access cnt (i + 1)

/-- The loop `while (--connretry && (ctrl_conn = wpa_ctrl_open(ifname)) == NULL)`
with `n` the number of attempts still allowed: the final `ctrl_conn` and the
number of attempts made. -/
def openLoop (openAttempt : Nat → Option Nat) : Nat → Nat → Option Nat → Option Nat × Nat
  | 0, k, cur => (cur, k)
  | n + 1, k, _ =>
    match openAttempt k with
    | some h => (some h, k + 1)
    | none => openLoop openAttempt n (k + 1) none

def wifi_connect_to_hostapd (env : ConnectEnv) (w : World) : World × Int :=
  let w0 := w.log .wifi_connect_to_hostapd
  if env.status ≠ "running" then (w0, -1)
  else
    let iface := "athap0"
    let calls := accessLoop env.access 160 0
    let ifname := if env.access calls then IFACE_DIR ++ "/" ++ iface else iface
    let connretry : Nat := 15
    let r := openLoop env.openAttempt (connretry - 1) 0 w0.ctrl_conn
    let w1 : World :=
      { w0 with ctrl_conn := r.1,
                trace := w0.trace ++ List.replicate r.2 (.wpa_ctrl_open ifname) }
    match r.1 with
    | none => (w1, -1)
    | some h =>
      let w2 := w1.log (.wpa_ctrl_attach h)
      if env.attach ≠ 0 then
        (({ w2 with ctrl_conn := none }).log (.wpa_ctrl_close h), -1)
      else (w2, 0)

def wifi_close_hostapd_connection (w : World) : World :=
  let w0 := w.log .wifi_close_hostapd_connection
  match w0.ctrl_conn with
  | some h => ({ w0 with ctrl_conn := none }).log (.wpa_ctrl_close h)
  | none => w0

def wifi_load_profile (started : Bool) (w : World) : Int :=
  if started ∧ w.mProfileValid ≠ 0 then
    if w.ctrl_conn = none then -1 else 0
  else 0

/-! ## Driver binding -/

/-- Answers of the system calls on `/sys/module/ar6000/parameters/ifname`
during one rename block: whether `open` succeeds, the byte `read` stores
(`none` when `read` does not return 1), the indeterminate value the
uninitialised `buffer` holds when nothing was stored, and whether `write`
returns a positive count. -/
structure IfnameEnv where
  openOk : Bool
  read : Option Char
  garbage : Char
  writeOk : Bool

/-- The value of the local `buffer` after the `read` call. -/
def IfnameEnv.buffer (env : IfnameEnv) : Char :=
  if env.openOk then env.read.getD env.garbage else env.garbage

/-- Answers for one `startDriver` call. -/
structure DriverEnv where
  powerOff : PowerEnv
  ifname : IfnameEnv
  powerOn : PowerEnv
  insmod : Int
  conf : ConfEnv

def startDriver (b : Build) (env : DriverEnv) (name : String) (w : World) : World × Int :=
  let w0 := w.log (.startDriver name)
  let r : World × Int :=
    if b.WIFI_MODULE_PATH then
      let w1 := w0.log (.rmmod "ar6000")
      let w2 := w1.log (.insmod (b.WIFI_DRIVER_MODULE_AP_ARG.getD "ifname=athap0 wowenable=0"))
      (w2, env.insmod)
    else
      let w1 := (set_wifi_power env.powerOff 0 w0).1
      let buffer := env.ifname.buffer
      if buffer ≠ 'a' ∧ env.ifname.openOk ∧ env.ifname.writeOk then
        set_wifi_power env.powerOn 1 (w1.log (.ifname_write "athap0"))
      else if buffer = 'a' then (w1, 0)
      else (w1, -2)
  if r.2 ≠ 0 then (r.1, -1)
  else
    let c := ensure_config_file_exists env.conf r.1
    if c.2 < 0 then (c.1, -1) else (c.1, c.2)

/-- Answers for one `stopDriver` call. -/
structure StopDriverEnv where
  powerOff : PowerEnv
  ifname : IfnameEnv
  insmod : Int

def stopDriver (b : Build) (env : StopDriverEnv) (name : String) (w : World) : World × Int :=
  let w0 := w.log (.stopDriver name)
  if b.WIFI_MODULE_PATH then
    let w1 := w0.log (.rmmod "ar6000")
    let w2 := w1.log (.insmod "")
    (w2, env.insmod)
  else
    let p := set_wifi_power env.powerOff 0 w0
    if p.2 = 0 then
      let buffer := env.ifname.buffer
      if buffer ≠ 'w' ∧ env.ifname.openOk ∧ env.ifname.writeOk then
        (p.1.log (.ifname_write "wlan0"), 0)
      else if buffer = 'w' then (p.1, 0)
      else (p.1, -2)
    else p

/-! ## Lifecycle -/

/-- Answers of all collaborators during one `startSoftap` call. -/
structure StartEnv where
  driver : DriverEnv
  hostapd : HostapdStartEnv
  stopDrv : StopDriverEnv
  connect : ConnectEnv

def isSoftapStarted (w : World) : Bool :=
  w.mPid ≠ 0

def startSoftap (b : Build) (env : StartEnv) (w : World) : World × ResponseCode :=
  let pid : Int := 1
  if w.mPid ≠ 0 then (w, .SoftapStatusResult)
  else
    let w1 := if w.mPid = 0 then (startDriver b env.driver "athap0" w).1 else w
    if pid = 0 then (w1, .ServiceStartFailed)
    else
      let w2 := (w1.log .ifc_init).log (.ifc_up "athap0")
      let s := wifi_start_hostapd b env.hostapd w2
      if s.2 < 0 then
        ((stopDriver b env.stopDrv "athap0" s.1).1, .ServiceStartFailed)
      else
        let c := wifi_connect_to_hostapd env.connect s.1
        if c.2 < 0 then (c.1, .ServiceStartFailed)
        else
          let ret := wifi_load_profile true c.1
          if ret < 0 then (c.1, .ServiceStartFailed)
          else
            let w3 := if ret ≠ 0 then c.1 else { c.1 with mPid := pid }
            let w4 := if ret = 0
              then ({ w3 with wakeLock := true }).log (.acquire_wake_lock AP_WAKE_LOCK)
              else w3
            (w4, .SoftapStatusResult)

/-- Answers of all collaborators during one `stopSoftap` call. -/
structure StopEnv where
  hostapd : HostapdStopEnv
  powerOff : PowerEnv
  ifname : IfnameEnv

def stopSoftap (b : Build) (env : StopEnv) (w : World) : World × ResponseCode :=
  if w.mPid = 0 then (w, .SoftapStatusResult)
  else
    let w1 := wifi_close_hostapd_connection w
    let s := wifi_stop_hostapd env.hostapd w1
    let w2 : World := { s.1 with mPid := 0 }
    let w3 :=
      if b.WIFI_MODULE_PATH then w2
      else
        let p := (set_wifi_power env.powerOff 0 w2).1
        if env.ifname.buffer ≠ 'w' ∧ env.ifname.openOk ∧ env.ifname.writeOk then
          p.log (.ifname_write "wlan0")
        else p
    (({ w3 with wakeLock := false }).log (.release_wake_lock AP_WAKE_LOCK),
      .SoftapStatusResult)

/-! ## Configuration writer (`setSoftap`) -/

/-- C library `isspace` in the "C" locale. -/
def isspace (c : Char) : Bool :=
  c = ' ' ∨ c = '\t' ∨ c = '\n' ∨ c = '\x0b' ∨ c = '\x0c' ∨ c = '\r'

/-- Value of the longest prefix of decimal digits, continuing from `acc`. -/
def digitsValue : List Char → Nat → Nat
  | [], acc => acc
  | c :: cs, acc =>
    if c.isDigit then digitsValue cs (10 * acc + (c.toNat - '0'.toNat)) else acc

/-- C library `atoi`: skip white space, take an optional sign, read decimal
digits up to the first other character. The C library leaves the result
undefined when the value does not fit an `int`; this definition gives the
mathematical value, and statements that depend on it stay below `2^31`. -/
def atoi (s : String) : Int :=
  match s.toList.dropWhile isspace with
  | '-' :: cs => - (digitsValue cs 0 : Int)
  | '+' :: cs => (digitsValue cs 0 : Int)
  | cs => (digitsValue cs 0 : Int)

/-- C library `strcasecmp`, up to the sign of a non-zero result: `0` exactly
when the two strings agree after ASCII lower-casing. -/
def strcasecmp (a c : String) : Int :=
  if a.toList.map Char.toLower = c.toList.map Char.toLower then 0 else 1

/-- Conversion `%d` of `asprintf`. -/
def fmtD (n : Int) : String := toString n

/-- Ways in which a call leaves defined behaviour instead of returning. -/
inductive Fault where
  | argvOutOfBounds (i : Nat)
  | nullDeref
  deriving DecidableEq, Repr

/-- Result of a call: a response code, or a fault. -/
inductive Outcome where
  | returned (code : ResponseCode)
  | fault (f : Fault)
  deriving DecidableEq, Repr

/-- A value, or the fault met while computing it. -/
inductive Checked (α : Type) where
  | ok (a : α)
  | error (f : Fault)
  deriving DecidableEq, Repr

/-- Read `argv[i]` from a vector that holds `argv.length` entries. -/
def argvAt (argv : List String) (i : Nat) : Checked String :=
  match argv[i]? with
  | some a => .ok a
  | none => .error (.argvOutOfBounds i)

/-- The statements `channel = atoi(argv[5]); if (channel <= 0) channel =
AP_CHANNEL_DEFAULT;` of `setSoftap`, as a function of `argv[5]`. -/
def resolveChannel (b : Build) (a5 : String) : Int :=
  let channel := atoi a5
  if channel ≤ 0 then b.AP_CHANNEL_DEFAULT else channel

/-- Locals of `setSoftap` when it reaches the `open` call; `fbuf = none` is
the null pointer `fbuf` was initialised with. -/
structure SetLocals where
  hidden : Int
  channel : Int
  wbuf : String
  fbuf : Option String
  deriving DecidableEq, Repr

/-- Straight-line part of `setSoftap` between the argument-count check and the
`open` call, reading `argv` in the order the code does. -/
def setSoftapLocals (b : Build) (argc : Int) (argv : List String) : Checked SetLocals :=
  match argvAt argv 2 with
  | .error f => .error f
  | .ok _ =>
  match argvAt argv 4 with
  | .error f => .error f
  | .ok a4 =>
  let hidden : Int := if strcasecmp a4 "hidden" = 0 then 1 else 0
  match (if argc ≥ 5 then argvAt argv 5 else .ok "") with
  | .error f => .error f
  | .ok a5 =>
  let channel : Int := if argc ≥ 5 then resolveChannel b a5 else b.AP_CHANNEL_DEFAULT
  match argvAt argv 3 with
  | .error f => .error f
  | .ok a3 =>
  let wbuf : String :=
    "interface=" ++ "athap0" ++ "\nctrl_interface=" ++ "/data/misc/wifi/hostapd\nssid="
      ++ a3 ++ "\nchannel_num=" ++ fmtD channel ++ "\n" ++ "auth_algs=1\nmax_num_sta="
      ++ fmtD WIFI_DEFAULT_MAX_STA ++ "\nbeacon_int=" ++ fmtD WIFI_DEFAULT_BI
      ++ "\ndtim_period=" ++ fmtD WIFI_DEFAULT_DTIM ++ "\n"
  if argc > 7 then
    match argvAt argv 6 with
    | .error f => .error f
    | .ok a6 =>
      if a6 = "wpa2-psk" then
        match argvAt argv 7 with
        | .error f => .error f
        | .ok a7 =>
          .ok { hidden := hidden, channel := channel, wbuf := wbuf,
                fbuf := some (wbuf ++ "wpa=2\nwpa_key_mgmt=WPA-PSK\nwpa_pairwise=CCMP\nwpa_passphrase="
                  ++ a7 ++ "\n") }
      else if a6 = "open" then
        .ok { hidden := hidden, channel := channel, wbuf := wbuf, fbuf := some wbuf }
      else .ok { hidden := hidden, channel := channel, wbuf := wbuf, fbuf := none }
  else if argc > 6 then
    match argvAt argv 6 with
    | .error f => .error f
    | .ok a6 =>
      if a6 = "open" then
        .ok { hidden := hidden, channel := channel, wbuf := wbuf, fbuf := some wbuf }
      else .ok { hidden := hidden, channel := channel, wbuf := wbuf, fbuf := none }
  else .ok { hidden := hidden, channel := channel, wbuf := wbuf, fbuf := some wbuf }

/-- Answers of the file system during one `setSoftap` call: whether `open`
succeeds, the return value of `write`, whether `fchmod` and `fchown`
succeed. -/
structure SetEnv where
  openOk : Bool
  write : Int
  fchmod : Bool
  fchown : Bool

def setSoftap (b : Build) (env : SetEnv) (argc : Int) (argv : List String) (w : World) :
    World × Outcome :=
  if argc < 5 then (w, .returned .CommandSyntaxError)
  else
    match setSoftapLocals b argc argv with
    | .error f => (w, .fault f)
    | .ok l =>
      if ¬ env.openOk then (w, .returned .OperationFailed)
      else
        let w1 := ({ w with conf := some "" }).log .conf_open_trunc
        match l.fbuf with
        | none => (w1, .fault .nullDeref)
        | some fbuf =>
          let w2 := w1.log (.conf_write fbuf)
          let w3 : World :=
            if env.write < 0 then w2
            else { w2 with conf := some (String.mk (fbuf.toList.take env.write.toNat)) }
          let ret : ResponseCode :=
            if env.write < 0 then .OperationFailed else .SoftapStatusResult
          if ¬ env.fchmod then
            (({ w3 with conf := none }).log .conf_unlink, .returned .OperationFailed)
          else if ¬ env.fchown then
            (({ w3 with conf := none }).log .conf_unlink, .returned .OperationFailed)
          else
            let ret := wifi_load_profile (isSoftapStarted w3) w3
            if ret < 0 then (w3, .returned .OperationFailed)
            else if ret ≠ 0 then (w3, .returned .OperationFailed)
            else (w3, .returned .SoftapStatusResult)

/-! ## Call sequences -/

/-- One lifecycle call together with the behaviour of the collaborators
during it. -/
inductive Call where
  | start (env : StartEnv)
  | stop (env : StopEnv)

def Call.exec (b : Build) : Call → World → World × ResponseCode
  | .start env, w => startSoftap b env w
  | .stop env, w => stopSoftap b env w

/-- State after a sequence of lifecycle calls. -/
def runCalls (b : Build) (calls : List Call) (w : World) : World :=
  calls.foldl (fun v c => (c.exec b v).1) w

/-- Whether a call is a `stopSoftap`. -/
def Call.isStop : Call → Bool
  | .stop _ => true
  | .start _ => false

/-- States the controller can be in: the freshly constructed one, and every
state a `startSoftap`, `stopSoftap` or `setSoftap` call leaves behind, under
any behaviour of the collaborators. -/
inductive Reachable (b : Build) : World → Prop where
  | construct (radio : Char) (conf : Option String) :
      Reachable b (World.construct radio conf)
  | start (env : StartEnv) (w : World) :
      Reachable b w → Reachable b (startSoftap b env w).1
  | stop (env : StopEnv) (w : World) :
      Reachable b w → Reachable b (stopSoftap b env w).1
  | set (env : SetEnv) (argc : Int) (argv : List String) (w : World) :
      Reachable b w → Reachable b (setSoftap b env argc argv w).1

/-! ## The configuration text as the specification words it -/

/-- Base block of the configuration for SSID `s` and channel `c`. -/
def baseBlock (s : String) (c : Int) : String :=
  "interface=athap0\nctrl_interface=/data/misc/wifi/hostapd\nssid=" ++ s
    ++ "\nchannel_num=" ++ toString c
    ++ "\nauth_algs=1\nmax_num_sta=8\nbeacon_int=100\ndtim_period=1\n"

/-- Security block appended for `wpa2-psk` with passphrase `p`. -/
def wpaBlock (p : String) : String :=
  "wpa=2\nwpa_key_mgmt=WPA-PSK\nwpa_pairwise=CCMP\nwpa_passphrase=" ++ p ++ "\n"

/-! ## The channel as the specification words it -/

/-- Channel the specification asks for: `n` when the argument is the decimal
representation of a positive integer `n` (digits only), the default when it
denotes a non-positive number or is not an integer at all. -/
def specChannel (dflt : Int) (a5 : String) : Int :=
  if a5.toList ≠ [] ∧ a5.toList.all Char.isDigit = true ∧ 0 < digitsValue a5.toList 0 then
    (digitsValue a5.toList 0 : Int)
  else dflt

/-! ## Concrete scenarios -/

/-- Interface-rename build with property polling; `AP_CHANNEL_DEFAULT` is 6. -/
def buildRename : Build :=
  { WIFI_MODULE_PATH := false, WIFI_DRIVER_MODULE_AP_ARG := none,
    HAVE_LIBC_SYSTEM_PROPERTIES := true, AP_CHANNEL_DEFAULT := 6 }

/-- A working rfkill tree whose second entry is the wlan switch. -/
def powerOk : PowerEnv :=
  { rfkillTypes := ["bluetooth", "wlan"], stateOpenR := true, stateRead := true,
    stateOpenW := true, stateWrite := 1 }

/-- The interface parameter file reads `w` (station name) and accepts writes. -/
def ifnameStation : IfnameEnv :=
  { openOk := true, read := some 'w', garbage := 'x', writeOk := true }

/-- The interface parameter file cannot be opened. -/
def ifnameUnopenable : IfnameEnv :=
  { openOk := false, read := none, garbage := 'x', writeOk := false }

def confPresent : ConfEnv :=
  { accessible := true, template := some "", destOpen := true, readError := false,
    copied := "", chown := true }

/-- A driver bind in which every step works. -/
def driverOk : DriverEnv :=
  { powerOff := powerOk, ifname := ifnameStation, powerOn := powerOk, insmod := 0,
    conf := confPresent }

/-- A driver bind in which the interface cannot be renamed. -/
def driverFails : DriverEnv :=
  { powerOff := powerOk, ifname := ifnameUnopenable, powerOn := powerOk, insmod := 0,
    conf := confPresent }

/-- The daemon reports `stopped` twice and then `running`. -/
def hostapdComesUp : HostapdStartEnv :=
  { initial := "stopped", foundAtStart := true, serialAtStart := 4,
    polls := fun i => if i < 2 then ⟨true, "stopped", 4⟩ else ⟨true, "running", 5⟩ }

def stopDriverOk : StopDriverEnv :=
  { powerOff := powerOk, ifname := ifnameStation, insmod := 0 }

/-- The control socket opens at the first attempt and the attach succeeds. -/
def connectOk : ConnectEnv :=
  { status := "running", access := fun _ => true, openAttempt := fun _ => some 1,
    attach := 0 }

/-- The daemon runs but its control socket never opens. -/
def connectRefused : ConnectEnv :=
  { status := "running", access := fun _ => true, openAttempt := fun _ => none,
    attach := 0 }

/-- Everything works. -/
def startEnvOk : StartEnv :=
  { driver := driverOk, hostapd := hostapdComesUp, stopDrv := stopDriverOk,
    connect := connectOk }

/-- The driver bind fails; daemon and socket work. -/
def startEnvDriverFails : StartEnv :=
  { driver := driverFails, hostapd := hostapdComesUp, stopDrv := stopDriverOk,
    connect := connectOk }

/-- Driver and daemon come up; the control socket does not open. -/
def startEnvConnectRefused : StartEnv :=
  { driver := driverOk, hostapd := hostapdComesUp, stopDrv := stopDriverOk,
    connect := connectRefused }

/-- Freshly constructed controller, radio off, a configuration file holding
`old`. -/
def coldWorld : World := World.construct '0' (some "old")

/-- A file system on which every call of `setSoftap` works and `write` stores
up to 4096 bytes. -/
def setEnvOk : SetEnv := { openOk := true, write := 4096, fchmod := true, fchown := true }

/-- A file system on which `write` fails and the other calls work. -/
def setEnvWriteFails : SetEnv := { openOk := true, write := -1, fchmod := true, fchown := true }

/-! ## Observations of the daemon status signal -/

/-- The loop of `wifi_start_hostapd` once more, returning next to its result
the number of polls (loop iterations entered) made when it returns. -/
def startPollRun (hasProps : Bool) (polls : Nat → PropPoll) (serial : Nat) :
    Nat → Nat → Bool → Int × Nat
  | 0, i, _ => (-1, i)
  | count + 1, i, pi =>
    if hasProps then
      let pi1 := pi || (polls i).found
      if pi1 then
        if (polls i).status = "running" then (0, i + 1)
        else if (polls i).serial ≠ serial ∧ (polls i).status = "stopped" then (-1, i + 1)
        else startPollRun hasProps polls serial count (i + 1) pi1
      else startPollRun hasProps polls serial count (i + 1) pi1
    else startPollRun hasProps polls serial count (i + 1) pi

/-- The serial `wifi_start_hostapd` holds in `serial` when it issues the
start request: the one read from the property handle if it was found, else
the initial value 0. -/
def capturedSerial (b : Build) (env : HostapdStartEnv) : Nat :=
  if b.HAVE_LIBC_SYSTEM_PROPERTIES && env.foundAtStart then env.serialAtStart else 0

/-- Poll `i` observes the status `running`. -/
def pollRunning (env : HostapdStartEnv) (i : Nat) : Prop :=
  (env.polls i).status = "running"

/-- Poll `i` observes the status `stopped` with a serial other than the
captured one. -/
def pollCrashed (b : Build) (env : HostapdStartEnv) (i : Nat) : Prop :=
  (env.polls i).status = "stopped" ∧ (env.polls i).serial ≠ capturedSerial b env

/-- Result and number of polls of the polling phase of `wifi_start_hostapd`
(entered when the initial reading is not `running`). -/
def startPolling (b : Build) (env : HostapdStartEnv) : Int × Nat :=
  startPollRun b.HAVE_LIBC_SYSTEM_PROPERTIES env.polls (capturedSerial b env) 300 0
    (b.HAVE_LIBC_SYSTEM_PROPERTIES && env.foundAtStart)

/-! ## Stages of `startDriver` in the interface-rename build -/

/-- The rename block of `startDriver` wrote the AP name: the byte read is not
`a` and the `write` of `athap0` returned a positive count. -/
def renameDone (env : IfnameEnv) : Prop :=
  env.buffer ≠ 'a' ∧ env.openOk = true ∧ env.writeOk = true

/-- State and result of the opening `set_wifi_power(0)` of `startDriver`. -/
def afterPowerOff (env : DriverEnv) (name : String) (w : World) : World × Int :=
  set_wifi_power env.powerOff 0 (w.log (.startDriver name))

/-- State and result of the `set_wifi_power(1)` that follows a rename. -/
def afterPowerOn (env : DriverEnv) (name : String) (w : World) : World × Int :=
  set_wifi_power env.powerOn 1 ((afterPowerOff env name w).1.log (.ifname_write "athap0"))

instance (env : IfnameEnv) : Decidable (renameDone env) := by
  unfold renameDone
  infer_instance

/-- State and value of `ret` after the rename block of `startDriver` in the
interface-rename build. -/
def bindStep (env : DriverEnv) (name : String) (w : World) : World × Int :=
  if renameDone env.ifname then afterPowerOn env name w
  else if env.ifname.buffer = 'a' then ((afterPowerOff env name w).1, 0)
  else ((afterPowerOff env name w).1, -2)

/-- The configuration file does not exist and the template cannot be
opened. -/
def confMissing : ConfEnv :=
  { accessible := false, template := none, destOpen := false, readError := false,
    copied := "", chown := false }

/-- A driver bind in which power and rename work and the configuration file
is missing. -/
def driverConfMissing : DriverEnv :=
  { powerOff := powerOk, ifname := ifnameStation, powerOn := powerOk, insmod := 0,
    conf := confMissing }

/-- Freshly constructed controller, radio off, no configuration file. -/
def coldWorldNoConf : World := World.construct '0' none

/-! ## Frame lemmas: what the collaborators leave alone -/

/-- The controller's own variables agree in two states. -/
def SameControl (w v : World) : Prop :=
  v.mPid = w.mPid ∧ v.mProfileValid = w.mProfileValid ∧ v.ctrl_conn = w.ctrl_conn

theorem SameControl.rfl' (w : World) : SameControl w w := ⟨rfl, rfl, rfl⟩

theorem SameControl.trans' {u v w : World} (h1 : SameControl u v) (h2 : SameControl v w) :
    SameControl u w :=
  ⟨h2.1.trans h1.1, h2.2.1.trans h1.2.1, h2.2.2.trans h1.2.2⟩

theorem sameControl_log (w : World) (e : Event) : SameControl w (w.log e) := ⟨rfl, rfl, rfl⟩

theorem sameControl_init_rfkill (env : PowerEnv) (w : World) :
    SameControl w (init_rfkill env w).1 := by
  unfold init_rfkill
  split <;> exact ⟨rfl, rfl, rfl⟩

theorem sameControl_rfkill_probe (env : PowerEnv) (w : World) :
    SameControl w (if w.rfkill_id = -1 then init_rfkill env w else (w, 0)).1 := by
  split
  · exact sameControl_init_rfkill env w
  · exact SameControl.rfl' w

theorem sameControl_check_wifi_power (env : PowerEnv) (w : World) :
    SameControl w (check_wifi_power env w).1 := by
  have h := sameControl_rfkill_probe env w
  unfold check_wifi_power
  dsimp only
  generalize (if w.rfkill_id = -1 then init_rfkill env w else (w, 0)) = r at h ⊢
  split_ifs <;> exact h

theorem sameControl_set_wifi_power (env : PowerEnv) (n : Int) (w : World) :
    SameControl w (set_wifi_power env n w).1 := by
  have h := sameControl_rfkill_probe env w
  unfold set_wifi_power
  dsimp only
  generalize (if w.rfkill_id = -1 then init_rfkill env w else (w, 0)) = r at h ⊢
  have hc := h.trans' (sameControl_check_wifi_power env r.1)
  generalize check_wifi_power env r.1 = c at hc ⊢
  split_ifs
  all_goals first
    | exact h
    | exact hc

theorem sameControl_ensure_config (env : ConfEnv) (w : World) :
    SameControl w (ensure_config_file_exists env w).1 := by
  unfold ensure_config_file_exists
  split
  · split <;> exact ⟨rfl, rfl, rfl⟩
  · split
    · exact ⟨rfl, rfl, rfl⟩
    · split_ifs <;> exact ⟨rfl, rfl, rfl⟩

theorem sameControl_startDriver (b : Build) (env : DriverEnv) (name : String) (w : World) :
    SameControl w (startDriver b env name w).1 := by
  have hp := sameControl_set_wifi_power env.powerOff 0 (w.log (.startDriver name))
  have hq := fun v => sameControl_set_wifi_power env.powerOn 1 v
  have hr : SameControl w
      (if b.WIFI_MODULE_PATH = true then
        (((w.log (.startDriver name)).log (.rmmod "ar6000")).log
          (.insmod (b.WIFI_DRIVER_MODULE_AP_ARG.getD "ifname=athap0 wowenable=0")), env.insmod)
      else
        if env.ifname.buffer ≠ 'a' ∧ env.ifname.openOk = true ∧ env.ifname.writeOk = true then
          set_wifi_power env.powerOn 1
            ((set_wifi_power env.powerOff 0 (w.log (.startDriver name))).1.log
              (.ifname_write "athap0"))
        else if env.ifname.buffer = 'a' then
          ((set_wifi_power env.powerOff 0 (w.log (.startDriver name))).1, 0)
        else ((set_wifi_power env.powerOff 0 (w.log (.startDriver name))).1, -2)).1 := by
    split_ifs
    · exact ⟨rfl, rfl, rfl⟩
    · exact (SameControl.trans' hp (sameControl_log _ _)).trans' (hq _)
    · exact hp
    · exact hp
  unfold startDriver
  dsimp only
  generalize (if b.WIFI_MODULE_PATH = true then _ else _ : World × Int) = r at hr ⊢
  have hc := hr.trans' (sameControl_ensure_config env.conf r.1)
  generalize ensure_config_file_exists env.conf r.1 = c at hc ⊢
  split_ifs
  all_goals first
    | exact hr
    | exact hc

theorem sameControl_stopDriver (b : Build) (env : StopDriverEnv) (name : String) (w : World) :
    SameControl w (stopDriver b env name w).1 := by
  have hp := sameControl_set_wifi_power env.powerOff 0 (w.log (.stopDriver name))
  unfold stopDriver
  dsimp only
  generalize set_wifi_power env.powerOff 0 (w.log (.stopDriver name)) = p at hp ⊢
  split_ifs
  all_goals first
    | exact hp
    | exact ⟨rfl, rfl, rfl⟩

theorem sameControl_wifi_start_hostapd (b : Build) (env : HostapdStartEnv) (w : World) :
    SameControl w (wifi_start_hostapd b env w).1 := by
  unfold wifi_start_hostapd
  dsimp only
  split_ifs <;> exact ⟨rfl, rfl, rfl⟩

theorem sameControl_wifi_stop_hostapd (env : HostapdStopEnv) (w : World) :
    SameControl w (wifi_stop_hostapd env w).1 := by
  unfold wifi_stop_hostapd
  dsimp only
  split_ifs <;> exact ⟨rfl, rfl, rfl⟩

/-! ## The control session handle -/

/-- `wifi_connect_to_hostapd` never touches `mPid` or `mProfileValid`. -/
theorem wifi_connect_mPid (env : ConnectEnv) (w : World) :
    (wifi_connect_to_hostapd env w).1.mPid = w.mPid ∧
      (wifi_connect_to_hostapd env w).1.mProfileValid = w.mProfileValid := by
  unfold wifi_connect_to_hostapd
  dsimp only
  split_ifs <;> (try split) <;> exact ⟨rfl, rfl⟩

/-- `wifi_connect_to_hostapd` returns `0` or `-1`; with `0` the handle is
live, with `-1` it is null or the one held on entry. -/
theorem wifi_connect_result (env : ConnectEnv) (w : World) :
    ((wifi_connect_to_hostapd env w).2 = 0 ∧ (wifi_connect_to_hostapd env w).1.ctrl_conn ≠ none) ∨
    ((wifi_connect_to_hostapd env w).2 = -1 ∧
      ((wifi_connect_to_hostapd env w).1.ctrl_conn = none ∨
        (wifi_connect_to_hostapd env w).1.ctrl_conn = w.ctrl_conn)) := by
  unfold wifi_connect_to_hostapd
  dsimp only
  split_ifs <;> (try split) <;> simp_all [World.log]

/-! ## Outcomes of one `startSoftap` / `stopSoftap` call -/

theorem wifi_load_profile_live (started : Bool) (w : World) (h : w.ctrl_conn ≠ none) :
    wifi_load_profile started w = 0 := by
  unfold wifi_load_profile
  split_ifs <;> rfl

/-- The three ways a `startSoftap` call can end. -/
theorem startSoftap_cases (b : Build) (env : StartEnv) (w : World) :
    (w.mPid ≠ 0 ∧ startSoftap b env w = (w, .SoftapStatusResult)) ∨
    (w.mPid = 0 ∧ (startSoftap b env w).2 = .ServiceStartFailed ∧
      (startSoftap b env w).1.mPid = 0 ∧
      ((startSoftap b env w).1.ctrl_conn = none ∨
        (startSoftap b env w).1.ctrl_conn = w.ctrl_conn)) ∨
    (w.mPid = 0 ∧ (startSoftap b env w).2 = .SoftapStatusResult ∧
      (startSoftap b env w).1.mPid = 1 ∧ (startSoftap b env w).1.ctrl_conn ≠ none) := by
  by_cases hp : w.mPid = 0
  · right
    have hd := sameControl_startDriver b env.driver "athap0" w
    unfold startSoftap
    simp only [hp, ne_eq, not_true_eq_false, if_false, if_true, one_ne_zero]
    generalize (startDriver b env.driver "athap0" w).1 = w1 at hd ⊢
    have hs := (hd.trans' (sameControl_log w1 .ifc_init)).trans'
      ((sameControl_log _ (.ifc_up "athap0")).trans'
        (sameControl_wifi_start_hostapd b env.hostapd _))
    generalize wifi_start_hostapd b env.hostapd _ = s at hs ⊢
    by_cases hlt : s.2 < 0
    · left
      have hx := hs.trans' (sameControl_stopDriver b env.stopDrv "athap0" s.1)
      simp only [hlt, if_true]
      exact ⟨trivial, trivial, hx.1.trans hp, Or.inr hx.2.2⟩
    · simp only [hlt, if_false]
      have hm := wifi_connect_mPid env.connect s.1
      rcases wifi_connect_result env.connect s.1 with ⟨h0, hl⟩ | ⟨h1, hn⟩
      · right
        have hz := wifi_load_profile_live true _ hl
        simp only [h0, hz, lt_self_iff_false, if_false, if_true, World.log, ne_eq,
          not_true_eq_false]
        exact ⟨trivial, trivial, trivial, hl⟩
      · left
        simp only [h1, Int.reduceNeg, Left.neg_neg_iff, zero_lt_one, if_true]
        refine ⟨trivial, trivial, (hm.1.trans hs.1).trans hp, ?_⟩
        rcases hn with hn | hn
        · exact Or.inl hn
        · exact Or.inr (hn.trans hs.2.2)
  · left
    refine ⟨hp, ?_⟩
    unfold startSoftap
    simp only [ne_eq, hp, not_false_eq_true, if_true]

theorem wifi_close_result (w : World) :
    (wifi_close_hostapd_connection w).mPid = w.mPid ∧
      (wifi_close_hostapd_connection w).ctrl_conn = none := by
  unfold wifi_close_hostapd_connection
  dsimp only
  split
  · exact ⟨rfl, rfl⟩
  · next h => exact ⟨rfl, h⟩

/-- The two ways a `stopSoftap` call can end. -/
theorem stopSoftap_cases (b : Build) (env : StopEnv) (w : World) :
    (w.mPid = 0 ∧ stopSoftap b env w = (w, .SoftapStatusResult)) ∨
    (w.mPid ≠ 0 ∧ (stopSoftap b env w).2 = .SoftapStatusResult ∧
      (stopSoftap b env w).1.mPid = 0 ∧ (stopSoftap b env w).1.ctrl_conn = none) := by
  by_cases hp : w.mPid = 0
  · left
    refine ⟨hp, ?_⟩
    unfold stopSoftap
    simp only [hp, if_true]
  · right
    have hc := wifi_close_result w
    have hs := sameControl_wifi_stop_hostapd env.hostapd (wifi_close_hostapd_connection w)
    unfold stopSoftap
    simp only [hp, if_false]
    generalize wifi_close_hostapd_connection w = w1 at hc hs ⊢
    generalize wifi_stop_hostapd env.hostapd w1 = s at hs ⊢
    have hq := fun v => sameControl_set_wifi_power env.powerOff 0 v
    refine ⟨hp, trivial, ?_, ?_⟩
    · split_ifs
      · rfl
      · exact (hq _).1
      · exact (hq _).1
    · split_ifs
      · exact hs.2.2.trans hc.2
      · exact ((hq _).2.2).trans (hs.2.2.trans hc.2)
      · exact ((hq _).2.2).trans (hs.2.2.trans hc.2)

theorem runCalls_concat (b : Build) (xs : List Call) (c : Call) (w : World) :
    runCalls b (xs ++ [c]) w = (c.exec b (runCalls b xs w)).1 := by
  simp [runCalls, List.foldl_append]

/-- Splitting a list at its last element against a split at an inner
element. -/
theorem concat_eq_append_cons {α : Type} (init pre post : List α) (c x : α)
    (h : init ++ [c] = pre ++ x :: post) :
    (post = [] ∧ init = pre ∧ c = x) ∨
      ∃ post', post = post' ++ [c] ∧ init = pre ++ x :: post' := by
  rcases List.eq_nil_or_concat post with hnil | ⟨post', y, hy⟩
  · subst hnil
    have h2 : init ++ [c] = pre ++ [x] := h
    have h3 := List.append_inj' h2 rfl
    exact Or.inl ⟨rfl, h3.1, by simpa using h3.2⟩
  · subst hy
    have h2 : init ++ [c] = (pre ++ x :: post') ++ [y] := by
      rw [h]; simp
    have h3 := List.append_inj' h2 rfl
    have hcy : c = y := by simpa using h3.2
    subst hcy
    exact Or.inr ⟨post', by simp, h3.1⟩

/-! ## Lifecycle claims -/

theorem startSoftap_status_iff (b : Build) (env : StartEnv) (w : World) :
    (startSoftap b env w).2 = .SoftapStatusResult ↔
      isSoftapStarted (startSoftap b env w).1 = true := by
  unfold isSoftapStarted
  rcases startSoftap_cases b env w with ⟨hp, he⟩ | ⟨_, hr, hm, _⟩ | ⟨_, hr, hm, _⟩
  · rw [he]; simp [hp]
  · rw [hr, hm]; simp
  · rw [hr, hm]; simp

theorem startSoftap_started (b : Build) (env : StartEnv) (w : World)
    (h : isSoftapStarted w = true) :
    isSoftapStarted (startSoftap b env w).1 = true := by
  rcases startSoftap_cases b env w with ⟨_, he⟩ | ⟨hp, _⟩ | ⟨hp, _⟩
  · rw [he]; exact h
  · simp [isSoftapStarted, hp] at h
  · simp [isSoftapStarted, hp] at h

theorem stopSoftap_not_started (b : Build) (env : StopEnv) (w : World) :
    isSoftapStarted (stopSoftap b env w).1 = false := by
  unfold isSoftapStarted
  rcases stopSoftap_cases b env w with ⟨hp, he⟩ | ⟨_, _, hm, _⟩
  · rw [he]; simp [hp]
  · rw [hm]; simp

/-- C1: after any finite sequence of `startSoftap`/`stopSoftap` calls on a
freshly constructed controller, whatever the collaborators answer,
`isSoftapStarted()` is true exactly when the sequence splits as
`pre ++ start :: post` where that `startSoftap` call returned
`SoftapStatusResult` and `post` contains no `stopSoftap` call. -/
theorem isSoftapStarted_iff_successful_start_without_later_stop
    (b : Build) (radio : Char) (conf : Option String) (calls : List Call) :
    isSoftapStarted (runCalls b calls (World.construct radio conf)) = true ↔
      ∃ pre env post, calls = pre ++ Call.start env :: post ∧
        (startSoftap b env (runCalls b pre (World.construct radio conf))).2
          = .SoftapStatusResult ∧
        ∀ c ∈ post, c.isStop = false := by
  induction calls using List.reverseRecOn with
  | nil =>
    constructor
    · intro h
      simp [runCalls, isSoftapStarted, World.construct] at h
    · rintro ⟨pre, env, post, h, _⟩
      simp at h
  | append_singleton init c ih =>
    rw [runCalls_concat]
    cases c with
    | stop e =>
      constructor
      · intro h
        have := stopSoftap_not_started b e (runCalls b init (World.construct radio conf))
        simp only [Call.exec] at h
        rw [this] at h
        cases h
      · rintro ⟨pre, env, post, h, _, hns⟩
        rcases concat_eq_append_cons init pre post _ _ h with ⟨_, _, hc⟩ | ⟨post', hpost, _⟩
        · cases hc
        · have := hns (Call.stop e) (by rw [hpost]; simp)
          simp [Call.isStop] at this
    | start e =>
      simp only [Call.exec]
      rw [← startSoftap_status_iff]
      constructor
      · intro h
        exact ⟨init, e, [], rfl, h, by simp⟩
      · rintro ⟨pre, env, post, h, hres, hns⟩
        rcases concat_eq_append_cons init pre post _ _ h with
          ⟨_, hinit, hc⟩ | ⟨post', hpost, hinit⟩
        · cases hc
          rw [hinit]
          exact hres
        · rw [startSoftap_status_iff]
          apply startSoftap_started
          rw [ih]
          refine ⟨pre, env, post', hinit, hres, ?_⟩
          intro c hc
          exact hns c (by rw [hpost]; simp [hc])

/-- C2: a `startSoftap` call on a fresh controller in which `startDriver`
returns `-1` (the interface cannot be renamed) still goes on to start the
daemon and to open the control session, returns `SoftapStatusResult` and
leaves `isSoftapStarted()` true: the return value of `startDriver` is
dropped. -/
theorem startSoftap_drops_startDriver_failure :
    (startDriver buildRename startEnvDriverFails.driver "athap0" coldWorld).2 = -1 ∧
    (startSoftap buildRename startEnvDriverFails coldWorld).2 = .SoftapStatusResult ∧
    isSoftapStarted (startSoftap buildRename startEnvDriverFails coldWorld).1 = true ∧
    Event.property_set "ctl.start" "hostapd" ∈
      (startSoftap buildRename startEnvDriverFails coldWorld).1.trace ∧
    Event.wifi_connect_to_hostapd ∈
      (startSoftap buildRename startEnvDriverFails coldWorld).1.trace := by
  decide

/-- C3: a `startSoftap` call in which the daemon was started and
`wifi_connect_to_hostapd` then fails returns `ServiceStartFailed` with
`isSoftapStarted()` false and no wake lock, but it issues neither
`wifi_stop_hostapd` nor `stopDriver`: the start request to the daemon and the
driver bind stay in force. -/
theorem startSoftap_connect_failure_no_unwind :
    (wifi_start_hostapd buildRename startEnvConnectRefused.hostapd coldWorld).2 = 0 ∧
    (startSoftap buildRename startEnvConnectRefused coldWorld).2 = .ServiceStartFailed ∧
    isSoftapStarted (startSoftap buildRename startEnvConnectRefused coldWorld).1 = false ∧
    (startSoftap buildRename startEnvConnectRefused coldWorld).1.wakeLock = false ∧
    Event.property_set "ctl.start" "hostapd" ∈
      (startSoftap buildRename startEnvConnectRefused coldWorld).1.trace ∧
    Event.wifi_stop_hostapd ∉
      (startSoftap buildRename startEnvConnectRefused coldWorld).1.trace ∧
    Event.property_set "ctl.stop" "hostapd" ∉
      (startSoftap buildRename startEnvConnectRefused coldWorld).1.trace ∧
    Event.stopDriver "athap0" ∉
      (startSoftap buildRename startEnvConnectRefused coldWorld).1.trace := by
  decide

/-! ## Configuration claims -/

/-- C4: with the unrecognised security token `wep` and a file system on which
every call works, `setSoftap` truncates the configuration file (its old
content `old` is gone) and then passes the null `fbuf` to `strlen`; it does
not return an error code. -/
theorem setSoftap_unknown_security_truncates_and_faults :
    coldWorld.conf = some "old" ∧
    (setSoftap buildRename setEnvOk 7
      ["softap", "set", "athap0", "net", "broadcast", "6", "wep"] coldWorld).1.conf = some "" ∧
    (setSoftap buildRename setEnvOk 7
      ["softap", "set", "athap0", "net", "broadcast", "6", "wep"] coldWorld).2
        = .fault .nullDeref := by
  decide

/-- C7: the visibility argument sets the local `hidden` (1 for `hidden`, 0 for
`broadcast`) and nothing else: the text handed to `write` and the file left
behind are the same for both. -/
theorem setSoftap_visibility_not_rendered :
    (setSoftapLocals buildRename 6 ["softap", "set", "athap0", "net", "hidden", "6"]
      = .ok { hidden := 1, channel := 6,
              wbuf := "interface=athap0\nctrl_interface=/data/misc/wifi/hostapd\nssid=net\nchannel_num=6\nauth_algs=1\nmax_num_sta=8\nbeacon_int=100\ndtim_period=1\n",
              fbuf := some "interface=athap0\nctrl_interface=/data/misc/wifi/hostapd\nssid=net\nchannel_num=6\nauth_algs=1\nmax_num_sta=8\nbeacon_int=100\ndtim_period=1\n" }) ∧
    (setSoftapLocals buildRename 6 ["softap", "set", "athap0", "net", "broadcast", "6"]
      = .ok { hidden := 0, channel := 6,
              wbuf := "interface=athap0\nctrl_interface=/data/misc/wifi/hostapd\nssid=net\nchannel_num=6\nauth_algs=1\nmax_num_sta=8\nbeacon_int=100\ndtim_period=1\n",
              fbuf := some "interface=athap0\nctrl_interface=/data/misc/wifi/hostapd\nssid=net\nchannel_num=6\nauth_algs=1\nmax_num_sta=8\nbeacon_int=100\ndtim_period=1\n" }) ∧
    (setSoftap buildRename setEnvOk 6
        ["softap", "set", "athap0", "net", "hidden", "6"] coldWorld).1.conf
      = (setSoftap buildRename setEnvOk 6
        ["softap", "set", "athap0", "net", "broadcast", "6"] coldWorld).1.conf ∧
    (setSoftap buildRename setEnvOk 6
        ["softap", "set", "athap0", "net", "hidden", "6"] coldWorld).1.trace
      = (setSoftap buildRename setEnvOk 6
        ["softap", "set", "athap0", "net", "broadcast", "6"] coldWorld).1.trace := by
  decide

/-- C8: with `argc = 5` and an argument vector of exactly five entries (the
channel `argv[5]` is missing) `setSoftap` passes the argument-count check and
reads `argv[5]`, one past the end, instead of returning
`CommandSyntaxError`. -/
theorem setSoftap_argc5_reads_past_end :
    (["softap", "set", "athap0", "net", "broadcast"] : List String).length = 5 ∧
    (setSoftap buildRename setEnvOk 5
      ["softap", "set", "athap0", "net", "broadcast"] coldWorld).2
        = .fault (.argvOutOfBounds 5) ∧
    (setSoftap buildRename setEnvOk 5
      ["softap", "set", "athap0", "net", "broadcast"] coldWorld).2
        ≠ .returned .CommandSyntaxError := by
  decide

/-- C9: with well-formed arguments and a `write` that fails (returns `-1`)
while `open`, `fchmod` and `fchown` work, `setSoftap` returns
`SoftapStatusResult`: the `OperationFailed` stored in `ret` is overwritten by
the result of `wifi_load_profile`. The file is left truncated. -/
theorem setSoftap_write_failure_swallowed :
    (setSoftap buildRename setEnvWriteFails 7
      ["softap", "set", "athap0", "net", "broadcast", "6", "open"] coldWorld).2
        = .returned .SoftapStatusResult ∧
    (setSoftap buildRename setEnvWriteFails 7
      ["softap", "set", "athap0", "net", "broadcast", "6", "open"] coldWorld).1.conf
        = some "" := by
  decide

/-! ## The session handle follows the started flag -/

theorem sameControl_setSoftap (b : Build) (env : SetEnv) (argc : Int) (argv : List String)
    (w : World) : SameControl w (setSoftap b env argc argv w).1 := by
  unfold setSoftap
  dsimp only
  repeat' (first | exact ⟨rfl, rfl, rfl⟩ | split)

theorem fmtD_defaults :
    fmtD WIFI_DEFAULT_MAX_STA = "8" ∧ fmtD WIFI_DEFAULT_BI = "100" ∧
      fmtD WIFI_DEFAULT_DTIM = "1" := by
  decide

/-- The format string of the first `asprintf`, filled in, is the base block. -/
theorem wbuf_eq_baseBlock (s : String) (c : Int) :
    "interface=" ++ "athap0" ++ "\nctrl_interface=" ++ "/data/misc/wifi/hostapd\nssid="
      ++ s ++ "\nchannel_num=" ++ fmtD c ++ "\n" ++ "auth_algs=1\nmax_num_sta="
      ++ fmtD WIFI_DEFAULT_MAX_STA ++ "\nbeacon_int=" ++ fmtD WIFI_DEFAULT_BI
      ++ "\ndtim_period=" ++ fmtD WIFI_DEFAULT_DTIM ++ "\n" = baseBlock s c := by
  obtain ⟨h8, h100, h1⟩ := fmtD_defaults
  simp [String.append_assoc, h8, h100, h1, baseBlock]
  rfl

/-- The format string of the second `asprintf`, filled in, is the base block
followed by the security block. -/
theorem fbuf_eq_wpaBlock (wbuf p : String) :
    wbuf ++ "wpa=2\nwpa_key_mgmt=WPA-PSK\nwpa_pairwise=CCMP\nwpa_passphrase=" ++ p ++ "\n"
      = wbuf ++ wpaBlock p := by
  simp [String.append_assoc, wpaBlock]

/-- Locals for the four argument shapes that name a recognised security (or
none): the text in `fbuf`. -/
theorem setSoftapLocals_shapes (b : Build) (a0 a1 a2 s vis ch p : String) :
    (∃ l, setSoftapLocals b 6 [a0, a1, a2, s, vis, ch] = .ok l ∧
        l.fbuf = some (baseBlock s (resolveChannel b ch))) ∧
    (∃ l, setSoftapLocals b 7 [a0, a1, a2, s, vis, ch, "open"] = .ok l ∧
        l.fbuf = some (baseBlock s (resolveChannel b ch))) ∧
    (∃ l, setSoftapLocals b 8 [a0, a1, a2, s, vis, ch, "open", p] = .ok l ∧
        l.fbuf = some (baseBlock s (resolveChannel b ch))) ∧
    (∃ l, setSoftapLocals b 8 [a0, a1, a2, s, vis, ch, "wpa2-psk", p] = .ok l ∧
        l.fbuf = some (baseBlock s (resolveChannel b ch) ++ wpaBlock p)) := by
  refine ⟨?_, ?_, ?_, ?_⟩ <;>
    simp only [setSoftapLocals, argvAt, wbuf_eq_baseBlock, fbuf_eq_wpaBlock,
      List.getElem?_cons_succ, List.getElem?_cons_zero] <;>
    simp

theorem take_all_of_length_le (t : String) (n : Int) (h : (t.length : Int) ≤ n) :
    String.mk (t.toList.take n.toNat) = t := by
  have hlen : t.toList.length ≤ n.toNat := by
    have : (t.length : Int) ≤ (n.toNat : Int) := le_trans h (Int.self_le_toNat n)
    exact_mod_cast this
  rw [List.take_of_length_le hlen]
  rfl

/-- What `setSoftap` leaves in the file when every file-system call works and
`write` stores the whole buffer. -/
theorem setSoftap_conf_of_fbuf (b : Build) (env : SetEnv) (argc : Int) (argv : List String)
    (w : World) (l : SetLocals) (t : String)
    (hl : setSoftapLocals b argc argv = .ok l) (ht : l.fbuf = some t) (hargc : 5 ≤ argc)
    (hopen : env.openOk = true) (hmod : env.fchmod = true) (hown : env.fchown = true)
    (hfull : (t.length : Int) ≤ env.write) :
    (setSoftap b env argc argv w).1.conf = some t ∧
      Event.conf_write t ∈ (setSoftap b env argc argv w).1.trace := by
  have hw : ¬ env.write < 0 := by
    have : (0 : Int) ≤ (t.length : Int) := Int.natCast_nonneg _
    omega
  have htake := take_all_of_length_le t env.write hfull
  unfold setSoftap
  simp only [hl, ht, not_lt.mpr hargc, hopen, hmod, hown, hw, if_false, if_true,
    not_true_eq_false, htake]
  split_ifs <;> simp [World.log]

theorem digitChar_digit : ∀ k, k < 10 →
    (Nat.digitChar k).isDigit = true ∧ (Nat.digitChar k).toNat - '0'.toNat = k := by
  decide

/-- Reading back the digits `Nat.toDigitsCore` produced for `n` leaves `n` in
the accumulator. -/
theorem digitsValue_toDigitsCore (fuel : Nat) :
    ∀ (n : Nat) (ds rest : List Char), n < fuel →
      digitsValue (Nat.toDigitsCore 10 fuel n ds ++ rest) 0 = digitsValue (ds ++ rest) n := by
  induction fuel with
  | zero => intro n ds rest h; omega
  | succ fuel ih =>
    intro n ds rest h
    have hd := digitChar_digit (n % 10) (Nat.mod_lt _ (by norm_num))
    unfold Nat.toDigitsCore
    dsimp only
    split_ifs with h0
    · have hn : n % 10 = n := by omega
      simp only [List.cons_append, digitsValue, hd.1, if_true, hd.2]
      rw [hn]; simp
    · rw [ih (n / 10) _ rest (by omega)]
      simp only [List.cons_append, digitsValue, hd.1, if_true, hd.2]
      congr 1
      omega

/-- The decimal representation starts with a digit. -/
theorem toDigitsCore_head (fuel : Nat) :
    ∀ (n : Nat) (ds : List Char), n < fuel →
      ∃ c cs, Nat.toDigitsCore 10 fuel n ds = c :: cs ∧ c.isDigit = true := by
  induction fuel with
  | zero => intro n ds h; omega
  | succ fuel ih =>
    intro n ds h
    have hd := digitChar_digit (n % 10) (Nat.mod_lt _ (by norm_num))
    unfold Nat.toDigitsCore
    dsimp only
    split_ifs with h0
    · exact ⟨_, _, rfl, hd.1⟩
    · exact ih (n / 10) _ (by omega)

theorem digitsValue_stop (rest : List Char) (acc : Nat)
    (h : ∀ c, rest.head? = some c → c.isDigit = false) : digitsValue rest acc = acc := by
  cases rest with
  | nil => rfl
  | cons c cs =>
    have := h c rfl
    simp [digitsValue, this]

theorem digit_not_space_or_sign (c : Char) (h : c.isDigit = true) :
    isspace c = false ∧ c ≠ '-' ∧ c ≠ '+' := by
  refine ⟨?_, ?_, ?_⟩
  · by_contra hs
    simp only [isspace, Bool.not_eq_false, decide_eq_true_eq] at hs
    rcases hs with hs | hs | hs | hs | hs | hs <;> subst hs <;> revert h <;> decide
  · rintro rfl; revert h; decide
  · rintro rfl; revert h; decide

/-- `atoi` on a decimal representation followed by text that does not start
with a digit. -/
theorem atoi_repr_append (n : Nat) (rest : String)
    (hrest : ∀ c, rest.toList.head? = some c → c.isDigit = false) :
    atoi (toString n ++ rest) = (n : Int) := by
  have hval := digitsValue_toDigitsCore (n + 1) n [] rest.toList (Nat.lt_succ_self n)
  obtain ⟨c, cs, hc, hdig⟩ := toDigitsCore_head (n + 1) n [] (Nat.lt_succ_self n)
  have hlist : (toString n ++ rest).toList = Nat.toDigitsCore 10 (n + 1) n [] ++ rest.toList := rfl
  obtain ⟨hsp, hminus, hplus⟩ := digit_not_space_or_sign c hdig
  have hstop := digitsValue_stop rest.toList n hrest
  unfold atoi
  rw [hlist]
  rw [hc] at hval ⊢
  simp only [List.cons_append, List.dropWhile_cons, hsp, Bool.false_eq_true, if_false]
  split
  · next h => exact absurd (List.cons.inj h).1 hminus
  · next h => exact absurd (List.cons.inj h).1 hplus
  · rw [List.cons_append] at hval
    rw [hval]
    simp only [List.nil_append]
    rw [hstop]

/-- `atoi` reads 0 from a string that starts with neither white space, a
sign nor a digit (or is empty). -/
theorem atoi_no_number (s : String)
    (hs : ∀ c, s.toList.head? = some c →
      c.isDigit = false ∧ isspace c = false ∧ c ≠ '+' ∧ c ≠ '-') :
    atoi s = 0 := by
  unfold atoi
  cases hl : s.toList with
  | nil => rfl
  | cons c cs =>
    obtain ⟨hdig, hsp, hplus, hminus⟩ := hs c (by rw [hl]; rfl)
    simp only [List.dropWhile_cons, hsp, Bool.false_eq_true, if_false]
    split
    · next h => exact absurd (List.cons.inj h).1 hminus
    · next h => exact absurd (List.cons.inj h).1 hplus
    · simp [digitsValue, hdig]

/-- `atoi` is never positive on a string that starts with a minus sign. -/
theorem atoi_minus (s : String) : atoi ("-" ++ s) ≤ 0 := by
  have hlist : ("-" ++ s).toList = '-' :: s.toList := rfl
  have hsp : isspace '-' = false := by decide
  unfold atoi
  rw [hlist]
  simp only [List.dropWhile_cons, hsp, Bool.false_eq_true, if_false]
  exact Int.neg_nonpos_of_nonneg (Int.natCast_nonneg _)

theorem startPollRun_fst (hasProps : Bool) (polls : Nat → PropPoll) (serial : Nat) :
    ∀ (count i : Nat) (pi : Bool),
      (startPollRun hasProps polls serial count i pi).1
        = startPollLoop hasProps polls serial count i pi := by
  intro count
  induction count with
  | zero => intro i pi; rfl
  | succ count ih =>
    intro i pi
    unfold startPollRun startPollLoop
    dsimp only
    split_ifs <;> first | rfl | exact ih _ _

/-- The result `wifi_start_hostapd` returns after a non-`running` initial
reading is that of the polling phase. -/
theorem wifi_start_hostapd_polling (b : Build) (env : HostapdStartEnv) (w : World)
    (h : env.initial ≠ "running") :
    (wifi_start_hostapd b env w).2 = (startPolling b env).1 := by
  unfold wifi_start_hostapd startPolling capturedSerial
  dsimp only
  rw [if_neg h, startPollRun_fst]

/-- One poll that observes neither `running` nor a crash: the loop goes on. -/
theorem startPollRun_step (polls : Nat → PropPoll) (serial count i : Nat) (pi : Bool)
    (hobs : (pi || (polls i).found) = true)
    (hrun : (polls i).status ≠ "running")
    (hcrash : ¬ ((polls i).status = "stopped" ∧ (polls i).serial ≠ serial)) :
    startPollRun true polls serial (count + 1) i pi
      = startPollRun true polls serial count (i + 1) true := by
  have hc : ¬ ((polls i).serial ≠ serial ∧ (polls i).status = "stopped") :=
    fun h => hcrash ⟨h.2, h.1⟩
  rw [startPollRun]
  simp only [if_true, hobs, if_neg hrun, if_neg hc]

/-- A poll that observes `running` ends the loop with success. -/
theorem startPollRun_running (polls : Nat → PropPoll) (serial count i : Nat) (pi : Bool)
    (hobs : (pi || (polls i).found) = true) (hrun : (polls i).status = "running") :
    startPollRun true polls serial (count + 1) i pi = (0, i + 1) := by
  rw [startPollRun]
  simp only [if_true, hobs, hrun]

/-- A poll that observes a crash ends the loop with failure. -/
theorem startPollRun_crashed (polls : Nat → PropPoll) (serial count i : Nat) (pi : Bool)
    (hobs : (pi || (polls i).found) = true)
    (hcrash : (polls i).status = "stopped" ∧ (polls i).serial ≠ serial) :
    startPollRun true polls serial (count + 1) i pi = (-1, i + 1) := by
  have hrun : (polls i).status ≠ "running" := by
    rw [hcrash.1]; decide
  have hc : (polls i).serial ≠ serial ∧ (polls i).status = "stopped" := ⟨hcrash.2, hcrash.1⟩
  rw [startPollRun]
  simp only [if_true, hobs, if_neg hrun, if_pos hc]

/-- Success of the loop: some poll among the `count` next ones observes
`running` and none before it observes a crash. -/
theorem startPollRun_success_iff (polls : Nat → PropPoll) (serial : Nat) :
    ∀ (count i : Nat) (pi : Bool), (∀ j, (pi || (polls j).found) = true) →
      ((startPollRun true polls serial count i pi).1 = 0 ↔
        ∃ k, k < count ∧ (polls (i + k)).status = "running" ∧
          ∀ j, j < k →
            ¬ ((polls (i + j)).status = "stopped" ∧ (polls (i + j)).serial ≠ serial)) := by
  intro count
  induction count with
  | zero =>
    intro i pi _
    constructor
    · intro h
      simp [startPollRun] at h
    · rintro ⟨k, hk, _⟩
      omega
  | succ c ih =>
    intro i pi hobs
    by_cases hr : (polls i).status = "running"
    · rw [startPollRun_running polls serial c i pi (hobs i) hr]
      constructor
      · intro _
        exact ⟨0, Nat.succ_pos c, hr, fun j hj => absurd hj (Nat.not_lt_zero j)⟩
      · intro _
        rfl
    · by_cases hc : (polls i).status = "stopped" ∧ (polls i).serial ≠ serial
      · rw [startPollRun_crashed polls serial c i pi (hobs i) hc]
        constructor
        · intro h
          simp at h
        · rintro ⟨k, _, hrk, hnc⟩
          cases k with
          | zero => exact absurd hrk hr
          | succ k => exact absurd hc (hnc 0 (Nat.succ_pos k))
      · rw [startPollRun_step polls serial c i pi (hobs i) hr hc,
          ih (i + 1) true (fun _ => rfl)]
        constructor
        · rintro ⟨k, hk, hrk, hnc⟩
          refine ⟨k + 1, Nat.succ_lt_succ hk, ?_, ?_⟩
          · have e : i + (k + 1) = i + 1 + k := by omega
            rw [e]; exact hrk
          · intro j hj
            cases j with
            | zero => exact hc
            | succ j =>
              have e : i + (j + 1) = i + 1 + j := by omega
              rw [e]
              exact hnc j (Nat.lt_of_succ_lt_succ hj)
        · rintro ⟨k, hk, hrk, hnc⟩
          cases k with
          | zero => exact absurd hrk hr
          | succ k =>
            refine ⟨k, Nat.lt_of_succ_lt_succ hk, ?_, ?_⟩
            · have e : i + 1 + k = i + (k + 1) := by omega
              rw [e]; exact hrk
            · intro j hj
              have e : i + 1 + j = i + (j + 1) := by omega
              rw [e]
              exact hnc (j + 1) (Nat.succ_lt_succ hj)

/-- The loop fails at the first poll that observes a crash when no poll
before it observed `running` or a crash. -/
theorem startPollRun_first_crash (polls : Nat → PropPoll) (serial : Nat) :
    ∀ (k count i : Nat) (pi : Bool), (∀ j, (pi || (polls j).found) = true) →
      k < count →
      ((polls (i + k)).status = "stopped" ∧ (polls (i + k)).serial ≠ serial) →
      (∀ j, j < k → (polls (i + j)).status ≠ "running" ∧
        ¬ ((polls (i + j)).status = "stopped" ∧ (polls (i + j)).serial ≠ serial)) →
      startPollRun true polls serial count i pi = (-1, i + k + 1) := by
  intro k
  induction k with
  | zero =>
    intro count i pi hobs hk hc _
    cases count with
    | zero => omega
    | succ c => exact startPollRun_crashed polls serial c i pi (hobs i) hc
  | succ k ih =>
    intro count i pi hobs hk hc hq
    cases count with
    | zero => omega
    | succ c =>
      have h0 := hq 0 (Nat.succ_pos k)
      rw [startPollRun_step polls serial c i pi (hobs i) h0.1 h0.2]
      have e : i + (k + 1) = i + 1 + k := by omega
      rw [e] at hc
      have := ih c (i + 1) true (fun _ => rfl) (Nat.lt_of_succ_lt_succ hk) hc
        (fun j hj => by
          have e2 : i + 1 + j = i + (j + 1) := by omega
          rw [e2]
          exact hq (j + 1) (Nat.succ_lt_succ hj))
      rw [this]
      have e3 : i + 1 + k + 1 = i + (k + 1) + 1 := by omega
      rw [e3]

/-- The loop fails after `count` polls when none of them observes `running`
or a crash. -/
theorem startPollRun_timeout (polls : Nat → PropPoll) (serial : Nat) :
    ∀ (count i : Nat) (pi : Bool), (∀ j, (pi || (polls j).found) = true) →
      (∀ j, j < count → (polls (i + j)).status ≠ "running" ∧
        ¬ ((polls (i + j)).status = "stopped" ∧ (polls (i + j)).serial ≠ serial)) →
      startPollRun true polls serial count i pi = (-1, i + count) := by
  intro count
  induction count with
  | zero => intro i pi _ _; rfl
  | succ c ih =>
    intro i pi hobs hq
    have h0 := hq 0 (Nat.succ_pos c)
    rw [startPollRun_step polls serial c i pi (hobs i) h0.1 h0.2]
    rw [ih (i + 1) true (fun _ => rfl) (fun j hj => by
      have e2 : i + 1 + j = i + (j + 1) := by omega
      rw [e2]
      exact hq (j + 1) (Nat.succ_lt_succ hj))]
    have e3 : i + 1 + c = i + (c + 1) := by omega
    rw [e3]

theorem startPollRun_result (hasProps : Bool) (polls : Nat → PropPoll) (serial : Nat) :
    ∀ (count i : Nat) (pi : Bool),
      (startPollRun hasProps polls serial count i pi).1 = 0 ∨
        (startPollRun hasProps polls serial count i pi).1 = -1 := by
  intro count
  induction count with
  | zero => intro i pi; exact Or.inr rfl
  | succ c ih =>
    intro i pi
    unfold startPollRun
    dsimp only
    split_ifs
    · exact Or.inl rfl
    · exact Or.inr rfl
    · exact ih _ _
    · exact ih _ _
    · exact ih _ _

/-- C11: with the status property readable at every poll, so that each poll
yields an observation (status, serial): `wifi_start_hostapd` returns 0 exactly
when the initial reading is `running` or some poll among the first 300
observes `running` with no earlier poll observing `stopped` under a serial
other than the captured one; it returns 0 or -1; after a non-`running`
initial reading it returns -1 having made `i + 1` polls when poll `i` is the
first to observe such a crash and no poll before it observed `running`, and
returns -1 having made exactly 300 polls when no poll observes either; and
when the initial reading is `running` it issues no call beyond its own entry
(no `ctl.start` request). -/
theorem wifi_start_hostapd_observations (b : Build) (env : HostapdStartEnv) (w : World)
    (hprops : b.HAVE_LIBC_SYSTEM_PROPERTIES = true)
    (hobs : ∀ i, (env.foundAtStart || (env.polls i).found) = true) :
    ((wifi_start_hostapd b env w).2 = 0 ↔
      env.initial = "running" ∨
        ∃ i, i < 300 ∧ pollRunning env i ∧ ∀ j, j < i → ¬ pollCrashed b env j) ∧
    ((wifi_start_hostapd b env w).2 = 0 ∨ (wifi_start_hostapd b env w).2 = -1) ∧
    (env.initial ≠ "running" → ∀ i, i < 300 → pollCrashed b env i →
      (∀ j, j < i → ¬ pollRunning env j ∧ ¬ pollCrashed b env j) →
      (wifi_start_hostapd b env w).2 = -1 ∧ startPolling b env = (-1, i + 1)) ∧
    (env.initial ≠ "running" →
      (∀ j, j < 300 → ¬ pollRunning env j ∧ ¬ pollCrashed b env j) →
      (wifi_start_hostapd b env w).2 = -1 ∧ startPolling b env = (-1, 300)) ∧
    (env.initial = "running" →
      (wifi_start_hostapd b env w).1.trace = w.trace ++ [Event.wifi_start_hostapd]) := by
  have hpi : ∀ j, ((b.HAVE_LIBC_SYSTEM_PROPERTIES && env.foundAtStart) ||
      (env.polls j).found) = true := by
    intro j
    rw [hprops, Bool.true_and]
    exact hobs j
  have hiff := startPollRun_success_iff env.polls (capturedSerial b env) 300 0
    (b.HAVE_LIBC_SYSTEM_PROPERTIES && env.foundAtStart) hpi
  simp only [Nat.zero_add] at hiff
  have hrun : startPolling b env = startPollRun true env.polls (capturedSerial b env) 300 0
      (b.HAVE_LIBC_SYSTEM_PROPERTIES && env.foundAtStart) := by
    unfold startPolling
    rw [hprops]
  refine ⟨?_, ?_, ?_, ?_, ?_⟩
  · by_cases hi : env.initial = "running"
    · constructor
      · intro _
        exact Or.inl hi
      · intro _
        unfold wifi_start_hostapd
        simp only [hi, if_true]
    · rw [wifi_start_hostapd_polling b env w hi, hrun, hiff]
      constructor
      · intro h
        exact Or.inr h
      · rintro (h | h)
        · exact absurd h hi
        · exact h
  · by_cases hi : env.initial = "running"
    · left
      unfold wifi_start_hostapd
      simp only [hi, if_true]
    · rw [wifi_start_hostapd_polling b env w hi]
      exact startPollRun_result _ _ _ _ _ _
  · intro hi i hilt hc hq
    have h := startPollRun_first_crash env.polls (capturedSerial b env) i 300 0
      (b.HAVE_LIBC_SYSTEM_PROPERTIES && env.foundAtStart) hpi hilt
      (by rw [Nat.zero_add]; exact hc)
      (fun j hj => by rw [Nat.zero_add]; exact hq j hj)
    rw [Nat.zero_add] at h
    rw [wifi_start_hostapd_polling b env w hi, hrun, h]
    exact ⟨rfl, rfl⟩
  · intro hi hq
    have h := startPollRun_timeout env.polls (capturedSerial b env) 300 0
      (b.HAVE_LIBC_SYSTEM_PROPERTIES && env.foundAtStart) hpi
      (fun j hj => by rw [Nat.zero_add]; exact hq j hj)
    rw [Nat.zero_add] at h
    rw [wifi_start_hostapd_polling b env w hi, hrun, h]
    exact ⟨rfl, rfl⟩
  · intro hi
    unfold wifi_start_hostapd
    simp only [hi, if_true, World.log]

/-- C11 at a daemon that reports `stopped` twice under the captured serial and
then `running`: success at the third poll. -/
theorem wifi_start_hostapd_observations_witness :
    (buildRename.HAVE_LIBC_SYSTEM_PROPERTIES = true ∧
      ∀ i, (hostapdComesUp.foundAtStart || (hostapdComesUp.polls i).found) = true) ∧
    ((wifi_start_hostapd buildRename hostapdComesUp coldWorld).2 = 0 ↔
      hostapdComesUp.initial = "running" ∨
        ∃ i, i < 300 ∧ pollRunning hostapdComesUp i ∧
          ∀ j, j < i → ¬ pollCrashed buildRename hostapdComesUp j) ∧
    (wifi_start_hostapd buildRename hostapdComesUp coldWorld).2 = 0 ∧
    startPolling buildRename hostapdComesUp = (0, 3) :=
  ⟨⟨rfl, fun _ => rfl⟩,
   (wifi_start_hostapd_observations buildRename hostapdComesUp coldWorld rfl
      (fun _ => rfl)).1,
   by decide, by decide⟩

/-! ## Radio power around `startDriver` -/

theorem init_rfkill_radio (env : PowerEnv) (w : World) :
    (init_rfkill env w).1.radio = w.radio := by
  unfold init_rfkill
  split <;> rfl

theorem rfkill_probe_radio (env : PowerEnv) (w : World) :
    (if w.rfkill_id = -1 then init_rfkill env w else (w, 0)).1.radio = w.radio := by
  split
  · exact init_rfkill_radio env w
  · rfl

/-- `check_wifi_power` leaves the radio alone and reports what it reads. -/
theorem check_wifi_power_radio (env : PowerEnv) (w : World) :
    (check_wifi_power env w).1.radio = w.radio ∧
      ((check_wifi_power env w).2 = 1 → w.radio = '1') ∧
      ((check_wifi_power env w).2 = 0 → w.radio = '0') := by
  have h := rfkill_probe_radio env w
  unfold check_wifi_power
  dsimp only
  generalize (if w.rfkill_id = -1 then init_rfkill env w else (w, 0)) = r at h ⊢
  split_ifs <;> simp_all <;> exact ⟨h, h.symm⟩

/-- `set_wifi_power`: a failing call leaves the radio as it was; a call that
returns 0 with a `write` that does not return 0 leaves the radio in the
requested state. -/
theorem set_wifi_power_radio (env : PowerEnv) (n : Int) (w : World) :
    ((set_wifi_power env n w).2 ≠ 0 → (set_wifi_power env n w).1.radio = w.radio) ∧
      ((set_wifi_power env n w).2 = 0 → env.stateWrite ≠ 0 →
        (n = 0 → (set_wifi_power env n w).1.radio = '0') ∧
        (n = 1 → (set_wifi_power env n w).1.radio = '1')) := by
  have h := rfkill_probe_radio env w
  unfold set_wifi_power
  dsimp only
  generalize (if w.rfkill_id = -1 then init_rfkill env w else (w, 0)) = r at h ⊢
  have hc := check_wifi_power_radio env r.1
  generalize check_wifi_power env r.1 = c at hc ⊢
  split_ifs <;> simp_all [World.log] <;> intros <;> omega

theorem ensure_config_radio (env : ConfEnv) (w : World) :
    (ensure_config_file_exists env w).1.radio = w.radio := by
  unfold ensure_config_file_exists
  repeat' (first | rfl | split)

/-- Tail of `startDriver` after the bind step left state `r.1` and result
`r.2`. -/
theorem startDriver_tail_radio (env : ConfEnv) (r : World × Int) :
    (if r.2 ≠ 0 then (r.1, (-1 : Int))
      else if (ensure_config_file_exists env r.1).2 < 0
        then ((ensure_config_file_exists env r.1).1, -1)
        else ((ensure_config_file_exists env r.1).1,
          (ensure_config_file_exists env r.1).2)).1.radio = r.1.radio := by
  split_ifs
  · rfl
  · exact ensure_config_radio env r.1
  · exact ensure_config_radio env r.1

/-- `startDriver` in the interface-rename build, by stages. -/
theorem startDriver_rename_build (b : Build) (env : DriverEnv) (name : String) (w : World)
    (hb : b.WIFI_MODULE_PATH = false) :
    startDriver b env name w =
      (if (bindStep env name w).2 ≠ 0 then ((bindStep env name w).1, (-1 : Int))
        else if (ensure_config_file_exists env.conf (bindStep env name w).1).2 < 0
          then ((ensure_config_file_exists env.conf (bindStep env name w).1).1, -1)
          else ((ensure_config_file_exists env.conf (bindStep env name w).1).1,
            (ensure_config_file_exists env.conf (bindStep env name w).1).2)) := by
  unfold startDriver bindStep afterPowerOn afterPowerOff renameDone
  simp only [hb, Bool.false_eq_true, if_false]

end SoftapATH
